import Mathlib

/-!
Verification development for the Panorama command runner (`pano-tui.py`).

The embedding models the command-dispatch and job-tracking engine:
`fetch_devices`, `run_version_check`, `run_execute_command`,
`track_job_progress` and `handle_button_press`, together with the static
command catalog `URL_CHOICES`.

Modelling conventions:
- The parsed XML documents returned by the management API are modelled by
  the inductive `XML`, with `findall`/`find1`/`findDesc` mirroring the
  `ElementTree` path lookups used by the source (`./a/b/c` paths become
  segment lists; `.//tag` becomes a descendant search).
- One HTTP round trip is a `Response`: either an exception from the
  `requests` layer (`httpError` for `raise_for_status`, `requestError` for
  other `RequestException`s) or a body that parses (`ok _ (parsed root)`)
  or does not (`ok _ malformed`, on which `ET.fromstring` raises).
- Each coroutine is a pure function from its inputs and the responses the
  network would deliver to the ordered list of `Action`s it performs
  (log writes become `emit`, HTTP requests become `send`, `run_worker`
  spawns become `spawnTracker`) plus termination information.  A `crashed`
  flag (or `TrackExit.crashed`) records an uncaught Python exception
  (`ET.ParseError`, `AttributeError` on a missing node, `KeyError` on a
  missing attribute, `TypeError` joining text-less lines): the coroutine
  dies at that point and performs no further actions.
- Python string formatting and comparisons are modelled on `List Char`
  (`pyStr` renders `None` like an f-string, `substAux` models
  `str.format`'s `{version}` substitution, `lowerStr`/`containsSub` model
  `str.lower` and the `in` substring test for the ASCII strings involved).
-/

namespace PanoTui

/-- A parsed XML element: tag, attributes, text, children
(the fragment of `xml.etree.ElementTree` the source uses). -/
inductive XML where
  | elem (tag : String) (attrs : List (String × String)) (text : Option String)
      (children : List XML)

def XML.tag : XML → String
  | .elem t _ _ _ => t

def XML.attrs : XML → List (String × String)
  | .elem _ a _ _ => a

def XML.text : XML → Option String
  | .elem _ _ tx _ => tx

def XML.children : XML → List XML
  | .elem _ _ _ cs => cs

/-- `root.attrib[k]` as an optional lookup (a missing key raises `KeyError`). -/
def XML.attr (x : XML) (k : String) : Option String :=
  x.attrs.lookup k

/-- Direct children with the given tag, in document order. -/
def XML.childrenNamed (x : XML) (t : String) : List XML :=
  x.children.filter (fun c => c.tag == t)

/-- `ElementTree.findall` for a relative path `./s1/s2/...`:
all elements reached by following the tag segments, document order. -/
def XML.findall (x : XML) (path : List String) : List XML :=
  path.foldl (fun acc seg => acc.flatMap (fun y => y.childrenNamed seg)) [x]

/-- `ElementTree.find` for a relative path: first match or `None`. -/
def XML.find1 (x : XML) (path : List String) : Option XML :=
  (x.findall path).head?

mutual
/-- All proper descendants of an element, in document order. -/
def XML.descendants : XML → List XML
  | .elem _ _ _ cs => descendantsList cs

def descendantsList : List XML → List XML
  | [] => []
  | c :: cs => c :: (XML.descendants c ++ descendantsList cs)
end

/-- `ElementTree.find(".//tag")`: first descendant with the tag, or `None`. -/
def XML.findDesc (x : XML) (t : String) : Option XML :=
  (x.descendants.filter (fun d => d.tag == t)).head?

/-- Python f-string rendering of a value that may be `None`. -/
def pyStr : Option String → String
  | none => "None"
  | some s => s

/-- ASCII lowering of one character (what `str.lower` does on the
ASCII message strings this program compares). -/
def lowerChar (c : Char) : Char :=
  if 65 ≤ c.toNat ∧ c.toNat ≤ 90 then Char.ofNat (c.toNat + 32) else c

/-- ASCII `str.lower`. -/
def lowerStr (s : String) : String :=
  ⟨s.data.map lowerChar⟩

/-- Python's `needle in hay` substring test. -/
def containsSub (hay needle : String) : Bool :=
  hay.data.tails.any (fun t => needle.data.isPrefixOf t)

/-- Fuel-driven single-pattern substitution on character lists,
modelling `str.format`'s replacement of every `\x7bversion\x7d` occurrence. -/
def substAux (pat rep : List Char) : Nat → List Char → List Char
  | _, [] => []
  | 0, l => l
  | fuel + 1, c :: cs =>
    if pat.isPrefixOf (c :: cs) then
      rep ++ substAux pat rep fuel (List.drop pat.length (c :: cs))
    else
      c :: substAux pat rep fuel cs

/-- `template.format(version=v)` for the catalog templates, whose only
placeholder is `\x7bversion\x7d`. -/
def pyFormatVersion (template v : String) : String :=
  ⟨substAux "\x7bversion\x7d".data v.data template.data.length template.data⟩

/-- `command_info['cmd'].format(version=version) if version else command_info['cmd']`
(note Python truthiness: `None` and `""` both leave the template unformatted). -/
def renderCommand (template : String) (version : Option String) : String :=
  match version with
  | none => template
  | some v => if v = "" then template else pyFormatVersion template v

/-- One entry of the static command catalog: the XML command template and
the `generates_job` flag (`False` models an absent key, since the source
reads it with `dict.get`, which is falsy when absent). -/
structure CommandInfo where
  cmd : String
  generatesJob : Bool
deriving DecidableEq

/-- The static catalog `URL_CHOICES`. -/
def URL_CHOICES : List (String × CommandInfo) :=
  [("Software Version Check",
     ⟨"<request><system><software><check></check></software></system></request>", false⟩),
   ("Download Version",
     ⟨"<request><system><software><download><version>\x7bversion\x7d</version></download></software></system></request>", true⟩),
   ("Install Version",
     ⟨"<request><system><software><install><version>\x7bversion\x7d</version></install></software></system></request>", true⟩),
   ("Reboot",
     ⟨"<request><restart><system></system></restart></request>", false⟩)]

/-- The body of one HTTP response: well-formed XML or not
(`ET.fromstring` raises `ParseError` on `malformed`). -/
inductive XmlDoc where
  | malformed
  | parsed (root : XML)

/-- Outcome of one HTTP round trip through `run_api_request` plus
`raise_for_status`:
- `httpError code msg`: `raise_for_status` raised `HTTPError` (a
  `RequestException`) for status `code`, rendering as `msg`;
- `requestError msg`: the request itself raised another
  `RequestException` (connection failure, timeout, ...);
- `ok statusCode body`: a non-error HTTP response with the given body. -/
inductive Response where
  | httpError (code : Nat) (msg : String)
  | requestError (msg : String)
  | ok (statusCode : Nat) (body : XmlDoc)

/-- The exception message captured by `except RequestException as e`,
when the response is such an exception. -/
def Response.transportMsg : Response → Option String
  | .httpError _ m => some m
  | .requestError m => some m
  | .ok _ _ => none

/-- Every distinct message the coroutines write to the log, with the data
interpolated into it. -/
inductive Event where
  | ipRequired
  | fetching (panoIp : String)
  | authFailedError
  | apiError (msg : String)
  | forbidden403
  | httpErrorEv (msg : String)
  | connectionError (msg : String)
  | fetchSuccess (count : Nat)
  | selectDeviceError
  | runningCheck (hostname : String)
  | noVersionsWarning
  | versionsFound (count : Nat)
  | noDevicesSelected
  | startingHeader (cmdName : String) (count : Nat)
  | runningOn (cmdName hostname : String)
  | enqueued (jobId hostname : String)
  | noJobId (cmdName hostname : String)
  | deviceSuccess (statusCode : Nat)
  | deviceError (hostname msg : String)
  | jobSuccess (jobId hostname : String)
  | jobFailure (jobId hostname : String) (details : List String)
  | jobProgress (jobId hostname : String) (percent : String)
  | jobOngoing (jobId hostname status : String)
  | jobError (jobId hostname msg : String)
  | jobWarning (jobId hostname : String)
deriving DecidableEq

/-- One externally visible action of a coroutine, in program order:
a log write, an HTTP request to a target device, or spawning a
job-tracking worker. -/
inductive Action where
  | emit (e : Event)
  | send (target : String) (cmd : String)
  | spawnTracker (serial jobId : String)
deriving DecidableEq

/-- How one run of `track_job_progress` ended. -/
inductive TrackExit where
  | success
  | failure
  | indeterminateError
  | indeterminateWarning
  | crashed
  | exhausted
deriving DecidableEq

/-- The job-status poll command for a job id. -/
def pollCmd (jobId : String) : String :=
  "<show><jobs><id>" ++ jobId ++ "</id></jobs></show>"

/-- The polling loop of `track_job_progress`, one list element per poll
response the network would deliver; `exhausted` means the supplied
responses ran out while the loop would still be polling. -/
def trackLoop (serial jobId hostname : String) : List Response → List Action × TrackExit
  | [] => ([], .exhausted)
  | p :: rest =>
    match p with
    | .httpError _ m => ([.send serial (pollCmd jobId), .emit (.jobError jobId hostname m)], .indeterminateError)
    | .requestError m => ([.send serial (pollCmd jobId), .emit (.jobError jobId hostname m)], .indeterminateError)
    | .ok _ .malformed => ([.send serial (pollCmd jobId)], .crashed)
    | .ok _ (.parsed root) =>
      match root.find1 ["result", "job", "status"] with
      | none => ([.send serial (pollCmd jobId), .emit (.jobWarning jobId hostname)], .indeterminateWarning)
      | some stNode =>
        if stNode.text = some "FIN" then
          match root.find1 ["result", "job", "result"] with
          | none => ([.send serial (pollCmd jobId)], .crashed)
          | some resNode =>
            if resNode.text = some "OK" then
              ([.send serial (pollCmd jobId), .emit (.jobSuccess jobId hostname)], .success)
            else
              let lines := root.findall ["result", "job", "details", "line"]
              if lines.all (fun l => l.text.isSome) then
                ([.send serial (pollCmd jobId),
                  .emit (.jobFailure jobId hostname (lines.filterMap XML.text))], .failure)
              else ([.send serial (pollCmd jobId)], .crashed)
        else if stNode.text = some "ACT" then
          let progressEvs :=
            match root.find1 ["result", "job", "progress"] with
            | some pn =>
              match pn.text with
              | some t => if t = "" then [] else [Action.emit (.jobProgress jobId hostname t)]
              | none => []
            | none => []
          let r := trackLoop serial jobId hostname rest
          (.send serial (pollCmd jobId) :: progressEvs ++ r.1, r.2)
        else
          let r := trackLoop serial jobId hostname rest
          (.send serial (pollCmd jobId) :: .emit (.jobOngoing jobId hostname (pyStr stNode.text)) :: r.1, r.2)

/-- `track_job_progress`: resolves the display hostname once, then polls. -/
def trackJobProgress (table : List (String × String)) (serial jobId : String)
    (polls : List Response) : List Action × TrackExit :=
  trackLoop serial jobId ((table.lookup serial).getD serial) polls

/-- The job identifier a job-producing dispatch extracts from a parsed
response: `root.find('./result/job')` followed by Python truthiness of
its text (`None` node, `None` text and empty text all count as absent). -/
def jobIdOf (root : XML) : Option String :=
  match root.find1 ["result", "job"] with
  | some jn =>
    match jn.text with
    | some t => if t = "" then none else some t
    | none => none
  | none => none

/-- The per-device loop of `run_execute_command` over the selected serials:
for each device log the running line, send the command, then classify.
The `Bool` is the crash flag: on an uncaught `ET.ParseError` (malformed
body of a job-producing command) the coroutine dies and the remaining
serials are never processed. -/
def dispatchDevices (cmdName cmdXml : String) (genJob : Bool)
    (table : List (String × String)) (resp : String → Response) :
    List String → List Action × Bool
  | [] => ([], false)
  | s :: rest =>
    let hn := (table.lookup s).getD s
    let pre : List Action := [.emit (.runningOn cmdName hn), .send s cmdXml]
    let r := dispatchDevices cmdName cmdXml genJob table resp rest
    match resp s with
    | .httpError _ m => (pre ++ .emit (.deviceError hn m) :: r.1, r.2)
    | .requestError m => (pre ++ .emit (.deviceError hn m) :: r.1, r.2)
    | .ok code body =>
      if genJob then
        match body with
        | .malformed => (pre, true)
        | .parsed root =>
          match jobIdOf root with
          | some jid =>
            (pre ++ .emit (.enqueued jid hn) :: .spawnTracker s jid :: r.1, r.2)
          | none => (pre ++ .emit (.noJobId cmdName hn) :: r.1, r.2)
      else (pre ++ .emit (.deviceSuccess code) :: r.1, r.2)

/-- `run_execute_command`: empty-selection guard, catalog lookup
(`URL_CHOICES[command_name]`, whose failure would be a `KeyError` crash),
command rendering, header log, then the per-device loop. -/
def runExecuteCommand (commandName : String) (version : Option String)
    (table : List (String × String)) (resp : String → Response)
    (selected : List String) : List Action × Bool :=
  if selected.isEmpty then ([.emit .noDevicesSelected], false)
  else
    match URL_CHOICES.lookup commandName with
    | none => ([], true)
    | some info =>
      let cmdXml := renderCommand info.cmd version
      let r := dispatchDevices commandName cmdXml info.generatesJob table resp selected
      (.emit (.startingHeader commandName selected.length) :: r.1, r.2)

/-- The trackers spawned in a list of actions, in order. -/
def trackersOf : List Action → List (String × String)
  | [] => []
  | .spawnTracker s j :: as => (s, j) :: trackersOf as
  | _ :: as => trackersOf as

/-- The trace of one device inside the dispatch loop: what
`dispatchDevices` does for a singleton selection. -/
def deviceSegment (cmdName cmdXml : String) (genJob : Bool)
    (table : List (String × String)) (resp : String → Response) (s : String) :
    List Action × Bool :=
  dispatchDevices cmdName cmdXml genJob table resp [s]

/-- The device-list loop body of `fetch_devices` for one `entry` element:
kept iff both a `hostname` and a `serial` child exist, yielding the
selection `(f"\x7bhostname\x7d (\x7bserial\x7d)", serial)` built from the
nodes' text (an f-string renders a `None` text as `"None"`). -/
def extractOne (e : XML) : Option (String × Option String) :=
  match e.find1 ["hostname"], e.find1 ["serial"] with
  | some hn, some sn =>
    some (pyStr hn.text ++ " (" ++ pyStr sn.text ++ ")", sn.text)
  | some _, none => none
  | none, _ => none

/-- The `options` list built by the `fetch_devices` loop, in entry order. -/
def extractOptions : List XML → List (String × Option String)
  | [] => []
  | e :: es =>
    match extractOne e with
    | some o => o :: extractOptions es
    | none => extractOptions es

/-- `options.sort(key=lambda sel: sel.prompt)`: comparison on the display
label (Python sorts strings by code point; `le` here is string `≤`). -/
def promptLe (a b : String × Option String) : Bool :=
  decide (a.1 ≤ b.1)

/-- The device options `fetch_devices` presents: entries of
`./result/devices/entry` filtered by the loop, then sorted by prompt
(Python `list.sort` is a stable sort; modelled by `mergeSort`). -/
def sortedDeviceOptions (root : XML) : List (String × Option String) :=
  (extractOptions (root.findall ["result", "devices", "entry"])).mergeSort promptLe

/-- What one run of `fetch_devices` produced: the log events, the device
options added to the selection list, and whether an uncaught exception
killed the coroutine. -/
structure FetchOutcome where
  events : List Event
  options : List (String × Option String)
  crashed : Bool
deriving DecidableEq

/-- `fetch_devices`: IP guard, one request, then response classification
(the two `except` clauses catch only `requests` exceptions; `ET.ParseError`,
a missing `status` attribute (`KeyError`) and `None.lower()`
(`AttributeError`) crash the coroutine). -/
def fetchDevices (panoIp : String) (resp : Response) : FetchOutcome :=
  if panoIp = "" then ⟨[.ipRequired], [], false⟩
  else
    match resp with
    | .httpError code msg =>
      if code = 403 then ⟨[.fetching panoIp, .forbidden403], [], false⟩
      else ⟨[.fetching panoIp, .httpErrorEv msg], [], false⟩
    | .requestError msg => ⟨[.fetching panoIp, .connectionError msg], [], false⟩
    | .ok _ .malformed => ⟨[.fetching panoIp], [], true⟩
    | .ok _ (.parsed root) =>
      match root.attr "status" with
      | none => ⟨[.fetching panoIp], [], true⟩
      | some st =>
        if st = "error" then
          match root.findDesc "msg" with
          | none => ⟨[.fetching panoIp, .apiError "Unknown API error"], [], false⟩
          | some m =>
            match m.text with
            | none => ⟨[.fetching panoIp], [], true⟩
            | some t =>
              if containsSub (lowerStr t) "authentication failed" then
                ⟨[.fetching panoIp, .authFailedError], [], false⟩
              else ⟨[.fetching panoIp, .apiError t], [], false⟩
        else
          let opts := sortedDeviceOptions root
          ⟨[.fetching panoIp, .fetchSuccess opts.length], opts, false⟩

/-- What one run of `run_version_check` produced: requests sent (target
serial and command), log events, the versions loaded into the dropdown
(`none` when it was not populated), and the crash flag. -/
structure VersionCheckOutcome where
  requests : List (String × String)
  events : List Event
  versionOptions : Option (List (Option String))
  crashed : Bool
deriving DecidableEq

/-- `run_version_check`: guard on an empty selection, then one request to
the *first* selected serial.  Note the error-envelope branch reads
`root.find(".//msg").text` without a `None` check (crash when the node is
absent) and never tests for an authentication-failure message. -/
def runVersionCheck (table : List (String × String)) (selected : List String)
    (resp : String → Response) : VersionCheckOutcome :=
  match selected with
  | [] => ⟨[], [.selectDeviceError], none, false⟩
  | target :: _ =>
    let hn := (table.lookup target).getD target
    let cmd := ((URL_CHOICES.lookup "Software Version Check").getD ⟨"", false⟩).cmd
    match resp target with
    | .httpError _ m =>
      ⟨[(target, cmd)], [.runningCheck hn, .connectionError m], none, false⟩
    | .requestError m =>
      ⟨[(target, cmd)], [.runningCheck hn, .connectionError m], none, false⟩
    | .ok _ .malformed => ⟨[(target, cmd)], [.runningCheck hn], none, true⟩
    | .ok _ (.parsed root) =>
      match root.attr "status" with
      | none => ⟨[(target, cmd)], [.runningCheck hn], none, true⟩
      | some st =>
        if st = "error" then
          match root.findDesc "msg" with
          | none => ⟨[(target, cmd)], [.runningCheck hn], none, true⟩
          | some m =>
            ⟨[(target, cmd)], [.runningCheck hn, .apiError (pyStr m.text)], none, false⟩
        else
          let versions := (root.findall ["result", "sw-updates", "versions", "entry", "version"]).map XML.text
          if versions.isEmpty then
            ⟨[(target, cmd)], [.runningCheck hn, .noVersionsWarning], none, false⟩
          else
            ⟨[(target, cmd)], [.runningCheck hn, .versionsFound versions.length], some versions, false⟩

/-- What `handle_button_press` decides to do for one button press. -/
inductive ButtonOutcome where
  | credsError
  | versionError
  | launchFetch
  | launchVersionCheck
  | launchExecute (cmdName : String) (version : Option String)
  | ignored
deriving DecidableEq

/-- `URL_CHOICES[name].get("generates_job")` as a Bool. -/
def generatesJobOf (name : String) : Bool :=
  ((URL_CHOICES.lookup name).map CommandInfo.generatesJob).getD false

/-- `handle_button_press`: the credential guard
(`if not username or not password: if id != "fetch" and not table: pass
else: error`), then per-button action selection; `versionValue = none`
models `Select.BLANK`. -/
def handleButtonPress (buttonId username password : String)
    (table : List (String × String)) (versionValue : Option String) : ButtonOutcome :=
  if (username = "" ∨ password = "") ∧ ¬(buttonId ≠ "fetch" ∧ table = []) then
    .credsError
  else if buttonId = "fetch" then .launchFetch
  else if buttonId = "run_check_versions" then .launchVersionCheck
  else if buttonId = "run_download" ∨ buttonId = "run_install" ∨ buttonId = "run_reboot" then
    let cmdName :=
      if buttonId = "run_download" then "Download Version"
      else if buttonId = "run_install" then "Install Version"
      else "Reboot"
    if generatesJobOf cmdName then
      match versionValue with
      | none => .versionError
      | some v => .launchExecute cmdName (some v)
    else .launchExecute cmdName none
  else .ignored

/-! Sample response documents, used to instantiate the theorems below on
concrete inputs. -/

/-- A poll response: job finished with result `OK`. -/
def finOkRoot : XML :=
  .elem "response" [("status", "success")] none
    [.elem "result" [] none
      [.elem "job" [] none
        [.elem "status" [] (some "FIN") [],
         .elem "result" [] (some "OK") []]]]

/-- A poll response: job finished with result `FAIL` and two detail lines. -/
def finFailRoot : XML :=
  .elem "response" [("status", "success")] none
    [.elem "result" [] none
      [.elem "job" [] none
        [.elem "status" [] (some "FIN") [],
         .elem "result" [] (some "FAIL") [],
         .elem "details" [] none
           [.elem "line" [] (some "disk full") [],
            .elem "line" [] (some "job aborted") []]]]]

/-- A poll response: job finished, but with no result field at all. -/
def finNoResultRoot : XML :=
  .elem "response" [("status", "success")] none
    [.elem "result" [] none
      [.elem "job" [] none
        [.elem "status" [] (some "FIN") []]]]

/-- A poll response: job finished with result `FAIL`, whose second detail
line element carries no text. -/
def finFailNilLineRoot : XML :=
  .elem "response" [("status", "success")] none
    [.elem "result" [] none
      [.elem "job" [] none
        [.elem "status" [] (some "FIN") [],
         .elem "result" [] (some "FAIL") [],
         .elem "details" [] none
           [.elem "line" [] (some "disk full") [],
            .elem "line" [] none []]]]]

/-- A poll response: job active at 45 percent. -/
def actRoot : XML :=
  .elem "response" [("status", "success")] none
    [.elem "result" [] none
      [.elem "job" [] none
        [.elem "status" [] (some "ACT") [],
         .elem "progress" [] (some "45") []]]]

/-- A poll response with an unrecognized status value. -/
def pendRoot : XML :=
  .elem "response" [("status", "success")] none
    [.elem "result" [] none
      [.elem "job" [] none
        [.elem "status" [] (some "PEND") []]]]

/-- A poll response whose job element carries no status field. -/
def noStatusRoot : XML :=
  .elem "response" [("status", "success")] none
    [.elem "result" [] none
      [.elem "job" [] none []]]

/-- An execute response carrying job id `42`. -/
def jobRoot42 : XML :=
  .elem "response" [("status", "success")] none
    [.elem "result" [] none
      [.elem "job" [] (some "42") []]]

/-- An execute response with no job element at all. -/
def noJobRoot : XML :=
  .elem "response" [("status", "success")] none
    [.elem "result" [] none []]

/-- An error envelope whose nested message is an authentication failure. -/
def errAuthRoot : XML :=
  .elem "response" [("status", "error")] none
    [.elem "result" [] none
      [.elem "msg" [] (some "Authentication failed") []]]

/-- An error envelope with no nested message node. -/
def errNoMsgRoot : XML :=
  .elem "response" [("status", "error")] none []

/-- An error envelope with a generic, non-authentication message. -/
def errGenericRoot : XML :=
  .elem "response" [("status", "error")] none
    [.elem "msg" [] (some "Invalid command") []]

/-- Claim C2 counterexample: two poll responses whose job status is `FIN`
on which the tracker does not reach the claimed terminal outcomes: with
no `result` field, `root.find('./result/job/result').text` raises an
uncaught `AttributeError`, and with a text-less detail `line` element the
`"\n".join` over `line.text` raises an uncaught `TypeError` — in both
cases the tracker crashes with no success or failure outcome at all,
instead of reaching `TerminalFailure` with every detail line.  So the
claim, which covers every `FIN` response, fails on these inputs. -/
theorem trackerFinCrashes :
    trackJobProgress [] "S1" "7" [.ok 200 (.parsed finNoResultRoot)]
      = ([.send "S1" (pollCmd "7")], .crashed)
    ∧ trackJobProgress [] "S2" "8" [.ok 200 (.parsed finFailNilLineRoot)]
      = ([.send "S2" (pollCmd "8")], .crashed) := by
  refine ⟨rfl, rfl⟩

/-- Claim C2 as amended: on a poll response with job status `FIN`, if a
result field is present with text `OK` the tracker terminates with
exactly one success outcome; if a result field is present with any other
text (or none) and every detail line of the response carries text, it
terminates with exactly one failure outcome carrying every detail line;
but if the result field is absent, or a non-`OK` response contains a
detail line without text, the tracker crashes with no outcome.  In every
case the remaining poll responses are never consumed (polling stops). -/
theorem trackerFinTerminal (table : List (String × String)) (serial jobId : String)
    (code : Nat) (root stNode : XML) (rest : List Response)
    (hst : root.find1 ["result", "job", "status"] = some stNode)
    (hfin : stNode.text = some "FIN") :
    (∀ resNode, root.find1 ["result", "job", "result"] = some resNode →
      resNode.text = some "OK" →
      trackJobProgress table serial jobId (.ok code (.parsed root) :: rest)
        = ([.send serial (pollCmd jobId),
            .emit (.jobSuccess jobId ((table.lookup serial).getD serial))], .success))
    ∧ (∀ resNode, root.find1 ["result", "job", "result"] = some resNode →
        resNode.text ≠ some "OK" →
        (root.findall ["result", "job", "details", "line"]).all
          (fun l => l.text.isSome) = true →
        trackJobProgress table serial jobId (.ok code (.parsed root) :: rest)
          = ([.send serial (pollCmd jobId),
              .emit (.jobFailure jobId ((table.lookup serial).getD serial)
                ((root.findall ["result", "job", "details", "line"]).filterMap XML.text))],
             .failure))
    ∧ (root.find1 ["result", "job", "result"] = none →
        trackJobProgress table serial jobId (.ok code (.parsed root) :: rest)
          = ([.send serial (pollCmd jobId)], .crashed))
    ∧ (∀ resNode, root.find1 ["result", "job", "result"] = some resNode →
        resNode.text ≠ some "OK" →
        (root.findall ["result", "job", "details", "line"]).all
          (fun l => l.text.isSome) = false →
        trackJobProgress table serial jobId (.ok code (.parsed root) :: rest)
          = ([.send serial (pollCmd jobId)], .crashed)) := by
  refine ⟨?_, ?_, ?_, ?_⟩
  · intro resNode hres hok
    simp [trackJobProgress, trackLoop, hst, hfin, hres, hok]
  · intro resNode hres hne hlines
    simp [trackJobProgress, trackLoop, hst, hfin, hres, hne, hlines]
  · intro hres
    simp [trackJobProgress, trackLoop, hst, hfin, hres]
  · intro resNode hres hne hlines
    simp [trackJobProgress, trackLoop, hst, hfin, hres, hne, hlines]

/-- Witness for the amended C2: a finished/OK poll, a finished/FAIL poll
with two detail lines, a finished poll with no result field, and a
finished/FAIL poll with a text-less detail line, evaluated concretely. -/
theorem trackerFinTerminal_witness :
    trackJobProgress [("S1", "fw1")] "S1" "7" [.ok 200 (.parsed finOkRoot)]
      = ([.send "S1" (pollCmd "7"), .emit (.jobSuccess "7" "fw1")], .success)
    ∧ trackJobProgress [] "S2" "8" [.ok 200 (.parsed finFailRoot)]
      = ([.send "S2" (pollCmd "8"),
          .emit (.jobFailure "8" "S2" ["disk full", "job aborted"])], .failure)
    ∧ trackJobProgress [] "S3" "9" [.ok 200 (.parsed finNoResultRoot)]
      = ([.send "S3" (pollCmd "9")], .crashed)
    ∧ trackJobProgress [] "S4" "10" [.ok 200 (.parsed finFailNilLineRoot)]
      = ([.send "S4" (pollCmd "10")], .crashed) := by
  refine ⟨?_, ?_, ?_, ?_⟩
  · exact (trackerFinTerminal [("S1", "fw1")] "S1" "7" 200 finOkRoot
      (.elem "status" [] (some "FIN") []) [] rfl rfl).1
      (.elem "result" [] (some "OK") []) rfl rfl
  · exact (trackerFinTerminal [] "S2" "8" 200 finFailRoot
      (.elem "status" [] (some "FIN") []) [] rfl rfl).2.1
      (.elem "result" [] (some "FAIL") []) rfl (by decide) rfl
  · exact (trackerFinTerminal [] "S3" "9" 200 finNoResultRoot
      (.elem "status" [] (some "FIN") []) [] rfl rfl).2.2.1 rfl
  · exact (trackerFinTerminal [] "S4" "10" 200 finFailNilLineRoot
      (.elem "status" [] (some "FIN") []) [] rfl rfl).2.2.2
      (.elem "result" [] (some "FAIL") []) rfl (by decide) rfl

/-- Claim C6: a transport-layer failure of the status poll yields exactly
one error outcome, and a parsed poll response with no recognizable status
field yields exactly one warning outcome; in both cases the right-hand
sides do not mention the remaining poll responses, so the tracker never
polls again — these exits are final. -/
theorem trackerIndeterminateFinal (table : List (String × String)) (serial jobId m : String)
    (p : Response) (code : Nat) (root : XML) (rest rest' : List Response)
    (hp : p.transportMsg = some m)
    (hst : root.find1 ["result", "job", "status"] = none) :
    trackJobProgress table serial jobId (p :: rest)
      = ([.send serial (pollCmd jobId),
          .emit (.jobError jobId ((table.lookup serial).getD serial) m)], .indeterminateError)
    ∧ trackJobProgress table serial jobId (.ok code (.parsed root) :: rest')
      = ([.send serial (pollCmd jobId),
          .emit (.jobWarning jobId ((table.lookup serial).getD serial))],
         .indeterminateWarning) := by
  constructor
  · cases p with
    | httpError c m' =>
      simp only [Response.transportMsg, Option.some.injEq] at hp
      subst hp
      simp [trackJobProgress, trackLoop]
    | requestError m' =>
      simp only [Response.transportMsg, Option.some.injEq] at hp
      subst hp
      simp [trackJobProgress, trackLoop]
    | ok c b => simp [Response.transportMsg] at hp
  · simp [trackJobProgress, trackLoop, hst]

/-- Witness for C6: a connection failure and a status-less poll response,
evaluated concretely. -/
theorem trackerIndeterminateFinal_witness :
    trackJobProgress [] "S1" "9" [.requestError "connection reset"]
      = ([.send "S1" (pollCmd "9"), .emit (.jobError "9" "S1" "connection reset")],
         .indeterminateError)
    ∧ trackJobProgress [] "S1" "9" [.ok 200 (.parsed noStatusRoot)]
      = ([.send "S1" (pollCmd "9"), .emit (.jobWarning "9" "S1")], .indeterminateWarning) :=
  trackerIndeterminateFinal [] "S1" "9" "connection reset"
    (.requestError "connection reset") 200 noStatusRoot [] [] rfl rfl

/-- Claim C7: a poll response with status `ACT` and a non-empty progress
value emits a `Progress` event carrying exactly that value and continues
with the remaining polls (non-terminal); any status other than `FIN` and
`ACT` emits a generic ongoing observation naming that status and also
continues polling. -/
theorem trackerNonTerminalContinues (table : List (String × String)) (serial jobId t st : String)
    (code code' : Nat) (root root' stNode stNode' pn : XML) (rest rest' : List Response)
    (hst : root.find1 ["result", "job", "status"] = some stNode)
    (hact : stNode.text = some "ACT")
    (hpn : root.find1 ["result", "job", "progress"] = some pn)
    (hpt : pn.text = some t) (htne : t ≠ "")
    (gst : root'.find1 ["result", "job", "status"] = some stNode')
    (gtext : stNode'.text = some st) (gfin : st ≠ "FIN") (gact : st ≠ "ACT") :
    trackJobProgress table serial jobId (.ok code (.parsed root) :: rest)
      = (.send serial (pollCmd jobId)
          :: .emit (.jobProgress jobId ((table.lookup serial).getD serial) t)
          :: (trackLoop serial jobId ((table.lookup serial).getD serial) rest).1,
         (trackLoop serial jobId ((table.lookup serial).getD serial) rest).2)
    ∧ trackJobProgress table serial jobId (.ok code' (.parsed root') :: rest')
      = (.send serial (pollCmd jobId)
          :: .emit (.jobOngoing jobId ((table.lookup serial).getD serial) st)
          :: (trackLoop serial jobId ((table.lookup serial).getD serial) rest').1,
         (trackLoop serial jobId ((table.lookup serial).getD serial) rest').2) := by
  constructor
  · simp [trackJobProgress, trackLoop, hst, hact, hpn, hpt, htne]
  · simp [trackJobProgress, trackLoop, gst, gtext, gfin, gact, pyStr]

/-- Witness for C7: an active poll at 45 percent followed by an exhausted
poll list, and an unrecognized `PEND` status, evaluated concretely. -/
theorem trackerNonTerminalContinues_witness :
    trackJobProgress [] "S1" "5" [.ok 200 (.parsed actRoot)]
      = ([.send "S1" (pollCmd "5"), .emit (.jobProgress "5" "S1" "45")], .exhausted)
    ∧ trackJobProgress [] "S1" "5" [.ok 200 (.parsed pendRoot)]
      = ([.send "S1" (pollCmd "5"), .emit (.jobOngoing "5" "S1" "PEND")], .exhausted) :=
  trackerNonTerminalContinues [] "S1" "5" "45" "PEND" 200 200 actRoot pendRoot
    (.elem "status" [] (some "ACT") []) (.elem "status" [] (some "PEND") [])
    (.elem "progress" [] (some "45") []) [] []
    rfl rfl rfl rfl (by decide) rfl rfl (by decide) (by decide)

theorem trackersOf_append (a b : List Action) :
    trackersOf (a ++ b) = trackersOf a ++ trackersOf b := by
  induction a with
  | nil => rfl
  | cons x xs ih => cases x <;> simp [trackersOf, ih]

theorem trackersOf_dispatch_nonJob (cmdName cmdXml : String)
    (table : List (String × String)) (resp : String → Response) :
    ∀ serials, trackersOf (dispatchDevices cmdName cmdXml false table resp serials).1 = []
  | [] => by simp [dispatchDevices, trackersOf]
  | s :: rest => by
    have ih := trackersOf_dispatch_nonJob cmdName cmdXml table resp rest
    cases hr : resp s with
    | httpError c m => simp [dispatchDevices, hr, trackersOf, trackersOf_append, ih]
    | requestError m => simp [dispatchDevices, hr, trackersOf, trackersOf_append, ih]
    | ok c b => simp [dispatchDevices, hr, trackersOf, trackersOf_append, ih]

/-- Claim C4: an operation whose catalog entry does not generate a job
never spawns a tracker, whatever the responses; for a job-generating
operation, a successful parsed response without a job identifier
contributes exactly one `noJobId` failure outcome and no tracker, while a
response carrying job id `jid` contributes exactly one `enqueued` outcome
and exactly one spawned tracker for `(device, jid)`. -/
theorem dispatchTrackerSpawning (cmdName cmdXml : String)
    (table : List (String × String)) (resp : String → Response)
    (serials : List String) (s : String) (rest : List String)
    (code : Nat) (root : XML)
    (h : resp s = .ok code (.parsed root)) :
    trackersOf (dispatchDevices cmdName cmdXml false table resp serials).1 = []
    ∧ (jobIdOf root = none →
        dispatchDevices cmdName cmdXml true table resp (s :: rest)
          = ([.emit (.runningOn cmdName ((table.lookup s).getD s)), .send s cmdXml,
              .emit (.noJobId cmdName ((table.lookup s).getD s))]
              ++ (dispatchDevices cmdName cmdXml true table resp rest).1,
             (dispatchDevices cmdName cmdXml true table resp rest).2)
        ∧ trackersOf (dispatchDevices cmdName cmdXml true table resp (s :: rest)).1
            = trackersOf (dispatchDevices cmdName cmdXml true table resp rest).1)
    ∧ (∀ jid, jobIdOf root = some jid →
        dispatchDevices cmdName cmdXml true table resp (s :: rest)
          = ([.emit (.runningOn cmdName ((table.lookup s).getD s)), .send s cmdXml,
              .emit (.enqueued jid ((table.lookup s).getD s)), .spawnTracker s jid]
              ++ (dispatchDevices cmdName cmdXml true table resp rest).1,
             (dispatchDevices cmdName cmdXml true table resp rest).2)
        ∧ trackersOf (dispatchDevices cmdName cmdXml true table resp (s :: rest)).1
            = (s, jid) :: trackersOf (dispatchDevices cmdName cmdXml true table resp rest).1) := by
  refine ⟨trackersOf_dispatch_nonJob cmdName cmdXml table resp serials, ?_, ?_⟩
  · intro hnone
    constructor
    · simp [dispatchDevices, h, hnone]
    · simp [dispatchDevices, h, hnone, trackersOf, trackersOf_append]
  · intro jid hjid
    constructor
    · simp [dispatchDevices, h, hjid]
    · simp [dispatchDevices, h, hjid, trackersOf, trackersOf_append]

/-- Witness for C4: a non-job reboot over two devices spawns nothing; a
job-producing download with no job id yields one `noJobId` outcome and no
tracker; with job id `42` it yields one `enqueued` outcome and one
tracker. -/
theorem dispatchTrackerSpawning_witness :
    trackersOf (dispatchDevices "Reboot" "<request><restart><system></system></restart></request>"
        false [] (fun _ => .ok 200 (.parsed jobRoot42)) ["S1", "S2"]).1 = []
    ∧ dispatchDevices "Download Version" "c" true [] (fun _ => .ok 200 (.parsed noJobRoot)) ["S1"]
      = ([.emit (.runningOn "Download Version" "S1"), .send "S1" "c",
          .emit (.noJobId "Download Version" "S1")], false)
    ∧ dispatchDevices "Download Version" "c" true [] (fun _ => .ok 200 (.parsed jobRoot42)) ["S1"]
      = ([.emit (.runningOn "Download Version" "S1"), .send "S1" "c",
          .emit (.enqueued "42" "S1"), .spawnTracker "S1" "42"], false) := by
  refine ⟨?_, ?_, ?_⟩
  · exact (dispatchTrackerSpawning "Reboot"
      "<request><restart><system></system></restart></request>" []
      (fun _ => .ok 200 (.parsed jobRoot42)) ["S1", "S2"] "S1" [] 200 jobRoot42 rfl).1
  · exact ((dispatchTrackerSpawning "Download Version" "c" []
      (fun _ => .ok 200 (.parsed noJobRoot)) [] "S1" [] 200 noJobRoot rfl).2.1 rfl).1
  · exact ((dispatchTrackerSpawning "Download Version" "c" []
      (fun _ => .ok 200 (.parsed jobRoot42)) [] "S1" [] 200 jobRoot42 rfl).2.2 "42" rfl).1

/-- Claim C1 counterexample: during a job-producing dispatch to the two
devices `S1`, `S2`, a malformed XML body for `S1` raises an uncaught
`ET.ParseError`: the run dies (`crashed = true`) with no failure outcome
for `S1`, and `S2` is never processed (no actions for it appear).  So an
error arising while processing one device is not converted into a
per-device outcome and does abort the processing of the remaining
devices, contradicting the claim. -/
theorem dispatchErrorNotIsolated :
    runExecuteCommand "Download Version" (some "10.2.3") []
        (fun _ => .ok 200 .malformed) ["S1", "S2"]
      = ([.emit (.startingHeader "Download Version" 2),
          .emit (.runningOn "Download Version" "S1"),
          .send "S1" "<request><system><software><download><version>10.2.3</version></download></software></system></request>"],
         true) := by rfl

/-- Claim C1 as amended: transport-layer errors (`RequestException`,
including HTTP status errors) are caught locally: in dispatch they become
a failure outcome for the affected device and the remaining devices are
still processed, and in a poll they become a single error outcome ending
only that tracker; but an XML parse error in a job-producing dispatch
response crashes the dispatch coroutine with no outcome, skipping every
remaining device. -/
theorem transportErrorIsolated (cmdName cmdXml m m' : String) (genJob : Bool)
    (table : List (String × String)) (resp resp2 : String → Response)
    (s serial jobId : String) (rest : List String) (p : Response)
    (polls : List Response) (code : Nat)
    (hd : (resp s).transportMsg = some m)
    (hp : p.transportMsg = some m')
    (hm : resp2 s = .ok code .malformed) :
    dispatchDevices cmdName cmdXml genJob table resp (s :: rest)
      = ([.emit (.runningOn cmdName ((table.lookup s).getD s)), .send s cmdXml,
          .emit (.deviceError ((table.lookup s).getD s) m)]
          ++ (dispatchDevices cmdName cmdXml genJob table resp rest).1,
         (dispatchDevices cmdName cmdXml genJob table resp rest).2)
    ∧ trackJobProgress table serial jobId (p :: polls)
      = ([.send serial (pollCmd jobId),
          .emit (.jobError jobId ((table.lookup serial).getD serial) m')],
         .indeterminateError)
    ∧ dispatchDevices cmdName cmdXml true table resp2 (s :: rest)
      = ([.emit (.runningOn cmdName ((table.lookup s).getD s)), .send s cmdXml], true) := by
  refine ⟨?_, ?_, ?_⟩
  · cases hr : resp s with
    | httpError c mm =>
      rw [hr] at hd
      simp only [Response.transportMsg, Option.some.injEq] at hd
      subst hd
      simp [dispatchDevices, hr]
    | requestError mm =>
      rw [hr] at hd
      simp only [Response.transportMsg, Option.some.injEq] at hd
      subst hd
      simp [dispatchDevices, hr]
    | ok c b =>
      rw [hr] at hd
      simp [Response.transportMsg] at hd
  · cases p with
    | httpError c mm =>
      simp only [Response.transportMsg, Option.some.injEq] at hp
      subst hp
      simp [trackJobProgress, trackLoop]
    | requestError mm =>
      simp only [Response.transportMsg, Option.some.injEq] at hp
      subst hp
      simp [trackJobProgress, trackLoop]
    | ok c b => simp [Response.transportMsg] at hp
  · simp [dispatchDevices, hm]

/-- Witness for the amended C1: a timeout on `S1` leaves `S2` processed; a
timeout while polling ends only that tracker; a malformed job-producing
response aborts with no outcome. -/
theorem transportErrorIsolated_witness :
    dispatchDevices "Reboot" "r" false []
        (fun s => if s = "S1" then .requestError "timeout" else .ok 200 .malformed)
        ["S1", "S2"]
      = ([.emit (.runningOn "Reboot" "S1"), .send "S1" "r",
          .emit (.deviceError "S1" "timeout"),
          .emit (.runningOn "Reboot" "S2"), .send "S2" "r",
          .emit (.deviceSuccess 200)], false)
    ∧ trackJobProgress [] "S3" "11" [.requestError "timeout"]
      = ([.send "S3" (pollCmd "11"), .emit (.jobError "11" "S3" "timeout")],
         .indeterminateError)
    ∧ dispatchDevices "Download Version" "d" true [] (fun _ => .ok 200 .malformed) ["S1", "S2"]
      = ([.emit (.runningOn "Download Version" "S1"), .send "S1" "d"], true) := by
  have h := transportErrorIsolated "Reboot" "r" "timeout" "timeout" false []
    (fun s => if s = "S1" then .requestError "timeout" else .ok 200 .malformed)
    (fun _ => .ok 200 .malformed) "S1" "S3" "11" ["S2"]
    (.requestError "timeout") [] 200 rfl rfl rfl
  refine ⟨?_, h.2.1, ?_⟩
  · exact h.1.trans (by rfl)
  · have h2 := transportErrorIsolated "Download Version" "d" "x" "x" true []
      (fun _ => .requestError "x") (fun _ => .ok 200 .malformed)
      "S1" "S3" "11" ["S2"] (.requestError "x") [] 200 rfl rfl rfl
    exact h2.2.2

/-- Claim C8 counterexample: dispatching the non-job `Reboot` to the two
devices `S1` (whose call times out) and `S2` produces, in the single
dispatch coroutine, a strictly sequential trace: the request to `S2`
(index 4) is issued only after `S1`'s failure outcome (index 2), so `S2`'s
processing does wait for `S1`'s completion — the per-device work is not
an independent concurrent task per device, contradicting the claim. -/
theorem dispatchNotConcurrent :
    (dispatchDevices "Reboot" "<request><restart><system></system></restart></request>" false []
        (fun s => if s = "S1" then .requestError "timeout" else .ok 200 .malformed)
        ["S1", "S2"]).1
      = [.emit (.runningOn "Reboot" "S1"),
         .send "S1" "<request><restart><system></system></restart></request>",
         .emit (.deviceError "S1" "timeout"),
         .emit (.runningOn "Reboot" "S2"),
         .send "S2" "<request><restart><system></system></restart></request>",
         .emit (.deviceSuccess 200)]
    ∧ List.indexOf
        (Action.emit (.deviceError "S1" "timeout"))
        (dispatchDevices "Reboot" "<request><restart><system></system></restart></request>" false []
          (fun s => if s = "S1" then .requestError "timeout" else .ok 200 .malformed)
          ["S1", "S2"]).1
      < List.indexOf
        (Action.send "S2" "<request><restart><system></system></restart></request>")
        (dispatchDevices "Reboot" "<request><restart><system></system></restart></request>" false []
          (fun s => if s = "S1" then .requestError "timeout" else .ok 200 .malformed)
          ["S1", "S2"]).1 := by
  constructor
  · rfl
  · decide

/-- Claim C8 as amended: within the single dispatch coroutine the devices
are processed strictly sequentially — the action trace of dispatching to
`s :: rest` is `s`'s complete per-device segment followed by the trace for
`rest` (cut short if `s`'s processing crashed); each device's outcome is
still emitted as soon as that device completes, but a later device's
request is only sent after all earlier devices have finished.  Only job
trackers are spawned as separate concurrent workers. -/
theorem dispatchSequentialTrace (cmdName cmdXml : String) (genJob : Bool)
    (table : List (String × String)) (resp : String → Response)
    (s : String) (rest : List String) :
    dispatchDevices cmdName cmdXml genJob table resp (s :: rest)
      = if (deviceSegment cmdName cmdXml genJob table resp s).2 then
          ((deviceSegment cmdName cmdXml genJob table resp s).1, true)
        else
          ((deviceSegment cmdName cmdXml genJob table resp s).1
             ++ (dispatchDevices cmdName cmdXml genJob table resp rest).1,
           (dispatchDevices cmdName cmdXml genJob table resp rest).2) := by
  cases hr : resp s with
  | httpError c m => simp [deviceSegment, dispatchDevices, hr]
  | requestError m => simp [deviceSegment, dispatchDevices, hr]
  | ok c b =>
    cases b with
    | malformed => cases genJob <;> simp [deviceSegment, dispatchDevices, hr]
    | parsed root =>
      cases genJob <;> cases hj : jobIdOf root <;>
        simp [deviceSegment, dispatchDevices, hr, hj]

/-- Claim C3 counterexample: the same error envelope with message
`"Authentication failed"` is classified by `fetch_devices` as the
distinguished authentication failure, but by `run_version_check` as a
generic `ApiError` — and an error envelope with no message node makes
`run_version_check` crash (`root.find(".//msg").text` on `None`) instead
of defaulting to `"Unknown API error"`.  So the claimed classification
does not hold for every operation's response classification. -/
theorem versionCheckAuthNotDistinguished :
    (runVersionCheck [] ["S1"] (fun _ => .ok 200 (.parsed errAuthRoot))).events
      = [.runningCheck "S1", .apiError "Authentication failed"]
    ∧ (fetchDevices "10.0.0.1" (.ok 200 (.parsed errAuthRoot))).events
      = [.fetching "10.0.0.1", .authFailedError]
    ∧ runVersionCheck [] ["S1"] (fun _ => .ok 200 (.parsed errNoMsgRoot))
      = ⟨[("S1", "<request><system><software><check></check></software></system></request>")],
         [.runningCheck "S1"], none, true⟩ := by
  refine ⟨rfl, rfl, rfl⟩

/-- Claim C3 as amended: for a response whose top-level status attribute
is `"error"`, the device-fetch classification extracts the message from
the nested `msg` field, defaults to `"Unknown API error"` when the node
is absent, and surfaces a case-insensitive `authentication failed`
substring as the distinguished authentication-failure outcome; the
version-check classification instead crashes when the node is absent and
otherwise reports only a generic `ApiError`, never the distinguished
authentication failure.  The execute and poll paths classify no error
envelope at all. -/
theorem errorEnvelopeClassification (ip : String) (code code2 : Nat)
    (root root2 : XML) (t : String)
    (table : List (String × String)) (sel : List String) (s : String)
    (resp : String → Response)
    (hip : ip ≠ "")
    (hst : root.attr "status" = some "error")
    (hst2 : root2.attr "status" = some "error")
    (hresp : resp s = .ok code2 (.parsed root2)) :
    (root.findDesc "msg" = none →
      fetchDevices ip (.ok code (.parsed root))
        = ⟨[.fetching ip, .apiError "Unknown API error"], [], false⟩)
    ∧ (∀ mN, root.findDesc "msg" = some mN → mN.text = some t →
        fetchDevices ip (.ok code (.parsed root))
          = ⟨[.fetching ip,
              if containsSub (lowerStr t) "authentication failed" then .authFailedError
              else .apiError t], [], false⟩)
    ∧ (root2.findDesc "msg" = none →
        (runVersionCheck table (s :: sel) resp).crashed = true)
    ∧ (∀ mN, root2.findDesc "msg" = some mN →
        runVersionCheck table (s :: sel) resp
          = ⟨[(s, ((URL_CHOICES.lookup "Software Version Check").getD ⟨"", false⟩).cmd)],
             [.runningCheck ((table.lookup s).getD s), .apiError (pyStr mN.text)],
             none, false⟩
        ∧ Event.authFailedError ∉ (runVersionCheck table (s :: sel) resp).events) := by
  refine ⟨?_, ?_, ?_, ?_⟩
  · intro hm
    simp [fetchDevices, hip, hst, hm]
  · intro mN hm htext
    cases hc : containsSub (lowerStr t) "authentication failed" <;>
      simp [fetchDevices, hip, hst, hm, htext, hc]
  · intro hm
    simp [runVersionCheck, hresp, hst2, hm]
  · intro mN hm
    refine ⟨by simp [runVersionCheck, hresp, hst2, hm], ?_⟩
    simp [runVersionCheck, hresp, hst2, hm]

/-- Witness for the amended C3: the default message, the recognized
authentication failure, the version-check crash on a missing message
node, and the version-check generic classification, each on a concrete
envelope. -/
theorem errorEnvelopeClassification_witness :
    fetchDevices "panorama" (.ok 200 (.parsed errNoMsgRoot))
      = ⟨[.fetching "panorama", .apiError "Unknown API error"], [], false⟩
    ∧ fetchDevices "panorama" (.ok 200 (.parsed errAuthRoot))
      = ⟨[.fetching "panorama", .authFailedError], [], false⟩
    ∧ (runVersionCheck [] ["S1"] (fun _ => .ok 200 (.parsed errNoMsgRoot))).crashed = true
    ∧ runVersionCheck [] ["S1"] (fun _ => .ok 200 (.parsed errGenericRoot))
      = ⟨[("S1", "<request><system><software><check></check></software></system></request>")],
         [.runningCheck "S1", .apiError "Invalid command"], none, false⟩ := by
  have h1 := errorEnvelopeClassification "panorama" 200 200 errNoMsgRoot errNoMsgRoot
    "x" [] [] "S1" (fun _ => .ok 200 (.parsed errNoMsgRoot))
    (by decide) rfl rfl rfl
  have h2 := errorEnvelopeClassification "panorama" 200 200 errAuthRoot errGenericRoot
    "Authentication failed" [] [] "S1" (fun _ => .ok 200 (.parsed errGenericRoot))
    (by decide) rfl rfl rfl
  refine ⟨h1.1 rfl, ?_, h1.2.2.1 rfl, ?_⟩
  · exact (h2.2.1 (.elem "msg" [] (some "Authentication failed") []) rfl rfl).trans (by rfl)
  · exact (h2.2.2.2 (.elem "msg" [] (some "Invalid command") []) rfl).1

theorem extractOptions_eq_filterMap :
    ∀ l : List XML, extractOptions l = l.filterMap extractOne
  | [] => rfl
  | e :: es => by
    cases h : extractOne e <;>
      simp [extractOptions, h, extractOptions_eq_filterMap es]

/-- Claim C5: in the device-list extraction, an entry is kept exactly when
it has both a `hostname` and a `serial` child; the presented list is a
permutation of the kept entries and is sorted by display label
(`"hostname (serial)"`). -/
theorem deviceListExtraction (root e : XML) :
    ((sortedDeviceOptions root).Pairwise fun a b => a.1 ≤ b.1)
    ∧ List.Perm (sortedDeviceOptions root)
        ((root.findall ["result", "devices", "entry"]).filterMap extractOne)
    ∧ ((extractOne e).isSome ↔
        (e.find1 ["hostname"]).isSome ∧ (e.find1 ["serial"]).isSome) := by
  refine ⟨?_, ?_, ?_⟩
  · have htrans : ∀ a b c : String × Option String,
        promptLe a b → promptLe b c → promptLe a c := by
      intro a b c h1 h2
      exact decide_eq_true (le_trans (of_decide_eq_true h1) (of_decide_eq_true h2))
    have htotal : ∀ a b : String × Option String, promptLe a b || promptLe b a := by
      intro a b
      simp only [promptLe, Bool.or_eq_true, decide_eq_true_eq]
      exact le_total _ _
    exact (List.sorted_mergeSort htrans htotal
      (extractOptions (root.findall ["result", "devices", "entry"]))).imp
      (fun h => of_decide_eq_true h)
  · unfold sortedDeviceOptions
    rw [extractOptions_eq_filterMap]
    exact List.mergeSort_perm _ _
  · unfold extractOne
    cases h1 : e.find1 ["hostname"] <;> cases h2 : e.find1 ["serial"] <;> simp

/-- Claim C9: `run_version_check` on an empty selection emits only the
select-a-device error and sends nothing; on a non-empty selection it
sends exactly one query, targeted at the first selected serial, its whole
behavior is independent of the remaining selected devices (they get no
outcome), and the selection-empty error is never emitted. -/
theorem versionCheckFirstOnly (table : List (String × String))
    (resp : String → Response) (s : String) (t1 t2 rest : List String) :
    runVersionCheck table [] resp = ⟨[], [.selectDeviceError], none, false⟩
    ∧ runVersionCheck table (s :: t1) resp = runVersionCheck table (s :: t2) resp
    ∧ (runVersionCheck table (s :: rest) resp).requests
        = [(s, ((URL_CHOICES.lookup "Software Version Check").getD ⟨"", false⟩).cmd)]
    ∧ Event.selectDeviceError ∉ (runVersionCheck table (s :: rest) resp).events := by
  have key : (runVersionCheck table (s :: rest) resp).requests
        = [(s, ((URL_CHOICES.lookup "Software Version Check").getD ⟨"", false⟩).cmd)]
      ∧ Event.selectDeviceError ∉ (runVersionCheck table (s :: rest) resp).events := by
    cases hr : resp s with
    | httpError c m => simp [runVersionCheck, hr]
    | requestError m => simp [runVersionCheck, hr]
    | ok c b =>
      cases b with
      | malformed => simp [runVersionCheck, hr]
      | parsed root =>
        cases ha : root.attr "status" with
        | none => simp [runVersionCheck, hr, ha]
        | some st =>
          by_cases hs : st = "error"
          · cases hm : root.findDesc "msg" <;>
              simp [runVersionCheck, hr, ha, hs, hm]
          · by_cases hv : ((root.findall ["result", "sw-updates", "versions", "entry", "version"]).map XML.text).isEmpty <;>
              simp [runVersionCheck, hr, ha, hs, hv]
  exact ⟨rfl, rfl, key.1, key.2⟩

/-- Claim C10: with an empty username or password, the fetch button is
always rejected with the credentials error; every other button is
rejected with that error exactly when the serial-to-hostname table is
non-empty, and when no devices have been fetched yet the guard is
transparent (the press behaves as with any credentials): the version
check and reboot launch their workers, and download/install launch theirs
once a version is selected. -/
theorem credentialGuardAsymmetric (username password : String)
    (table : List (String × String)) (versionValue : Option String)
    (h : username = "" ∨ password = "") :
    handleButtonPress "fetch" username password table versionValue = .credsError
    ∧ (∀ id, table ≠ [] →
        handleButtonPress id username password table versionValue = .credsError)
    ∧ (∀ id u p, id ≠ "fetch" → table = [] →
        handleButtonPress id username password table versionValue
          = handleButtonPress id u p table versionValue)
    ∧ (table = [] →
        handleButtonPress "run_check_versions" username password table versionValue
            = .launchVersionCheck
        ∧ handleButtonPress "run_reboot" username password table versionValue
            = .launchExecute "Reboot" none
        ∧ (∀ v, versionValue = some v →
            handleButtonPress "run_download" username password table versionValue
                = .launchExecute "Download Version" (some v)
            ∧ handleButtonPress "run_install" username password table versionValue
                = .launchExecute "Install Version" (some v))) := by
  refine ⟨?_, ?_, ?_, ?_⟩
  · rcases h with h | h <;> simp [handleButtonPress, h]
  · intro id hta
    rcases h with h | h <;> simp [handleButtonPress, h, hta]
  · intro id u p hid hta
    subst hta
    rcases h with h | h <;> simp [handleButtonPress, h, hid]
  · intro hta
    subst hta
    refine ⟨?_, ?_, ?_⟩
    · rcases h with h | h <;> simp [handleButtonPress, h]
    · rcases h with h | h <;>
        simp [handleButtonPress, h, show generatesJobOf "Reboot" = false from rfl]
    · intro v hv
      subst hv
      rcases h with h | h <;>
        exact ⟨by simp [handleButtonPress, h,
                show generatesJobOf "Download Version" = true from rfl],
              by simp [handleButtonPress, h,
                show generatesJobOf "Install Version" = true from rfl]⟩

/-- Witness for C10: with an empty username, fetch is rejected; reboot is
rejected once a device table exists; with no devices fetched, the version
check launches and download launches with a selected version. -/
theorem credentialGuardAsymmetric_witness :
    handleButtonPress "fetch" "" "secret" [] none = .credsError
    ∧ handleButtonPress "run_reboot" "" "secret" [("007", "fw1")] none = .credsError
    ∧ handleButtonPress "run_check_versions" "" "secret" [] none = .launchVersionCheck
    ∧ handleButtonPress "run_download" "" "secret" [] (some "10.2.3")
        = .launchExecute "Download Version" (some "10.2.3") := by
  have h1 := credentialGuardAsymmetric "" "secret" [] none (Or.inl rfl)
  have h2 := credentialGuardAsymmetric "" "secret" [("007", "fw1")] none (Or.inl rfl)
  have h3 := credentialGuardAsymmetric "" "secret" [] (some "10.2.3") (Or.inl rfl)
  exact ⟨h1.1, h2.2.1 "run_reboot" (by simp), (h1.2.2.2 rfl).1,
    ((h3.2.2.2 rfl).2.2 "10.2.3" rfl).1⟩

end PanoTui
